import Mathlib

/-!
# Verification of the `fileutils` buffered append writer

A shallow embedding of the `File` buffered writer from package `fileutils`
(`NewFile`, `NewFileWithOptions`, `init`, `Write`, `WriteString`, `SafeWrite`,
`WriteLine`, `WriteBytes`, `Sync`, `SyncWrite`, `flush`, `Close`, and the
configuration setters), together with theorems about its lifecycle, buffering,
locking, and error behaviour.

Modelling conventions:
* Go byte slices and Go strings (the writer only ever converts strings to
  their bytes) are both `List Nat`.
* The single `sync.RWMutex` guarding the struct is modelled by a `mutexHeld`
  flag.  Go's mutex is not re-entrant: a goroutine that calls `Lock` while the
  mutex is already held blocks forever.  In this single-caller model that is a
  permanent block, rendered as `none`; every operation that locks therefore
  returns an `Option`, with `none` meaning the call never returns.
* The outcomes of the external sink calls (`os.OpenFile`,
  `bufio.Writer.Write`, `bufio.Writer.Flush`, `os.File.Close`) are supplied by
  an `Env` oracle, one Boolean per call site, so that failure paths can be
  explored.
* `sink` holds the bytes the OS file has received, `adapterBuf` the bytes
  sitting in the `bufio.Writer` between a successful adapter write and a
  successful adapter flush, and `adapterWrites` is a ghost history of the
  payload of every successful `bufio.Writer.Write` call, recording exactly
  which byte sequences were handed to the sink adapter.
-/

namespace fileutils

/-- Go byte slices / strings, as lists of byte values. -/
abbrev Bytes := List Nat

/-- `os.O_WRONLY` (Linux value). -/
def O_WRONLY : Nat := 1
/-- `os.O_CREATE` (Linux value). -/
def O_CREATE : Nat := 64
/-- `os.O_EXCL` (Linux value). -/
def O_EXCL : Nat := 128
/-- `os.O_TRUNC` (Linux value). -/
def O_TRUNC : Nat := 512
/-- `os.O_APPEND` (Linux value). -/
def O_APPEND : Nat := 1024

/-- `ModeCreate = os.O_WRONLY | os.O_CREATE | os.O_EXCL`. -/
def ModeCreate : Nat := O_WRONLY ||| O_CREATE ||| O_EXCL
/-- `ModeOverwrite = os.O_WRONLY | os.O_CREATE | os.O_TRUNC`. -/
def ModeOverwrite : Nat := O_WRONLY ||| O_CREATE ||| O_TRUNC
/-- `ModeAppend = os.O_WRONLY | os.O_CREATE | os.O_APPEND`. -/
def ModeAppend : Nat := O_WRONLY ||| O_CREATE ||| O_APPEND

/-- Error values returned by the writer, one per `fmt.Errorf` site. -/
inductive WError where
  /-- "file %s is closed" -/
  | closedErr
  /-- "failed to open file %s with mode %d" (from `init`) -/
  | initErr
  /-- "failed to write to file %s" (adapter write failed in `flush`) -/
  | flushWriteErr
  /-- "failed to flush file %s" (adapter flush failed in `flush`) -/
  | flushFlushErr
  /-- "failed to close file %s" (sink close failed in `Close`) -/
  | closeErr
deriving DecidableEq, Repr

/-- Oracle for the outcomes of the external sink operations touched by one
call into the writer: `os.OpenFile`, `bufio.Writer.Write`,
`bufio.Writer.Flush` and `os.File.Close`. -/
structure Env where
  openOk : Bool
  writeOk : Bool
  flushOk : Bool
  closeOk : Bool
deriving DecidableEq, Repr

/-- The `File` struct of package `fileutils`, with the backing sink state and
the adapter-write ghost history folded in.  `fileHandlerSet` models
`fileHandler != nil`, `mutexHeld` models the state of `mutex`. -/
structure File where
  filename : String
  mode : Nat
  encode : Bool
  lazy : Bool
  bufferSize : Int
  initialized : Bool
  closed : Bool
  fileHandlerSet : Bool
  adapterBuf : Bytes
  sink : Bytes
  buf : Bytes
  mutexHeld : Bool
  adapterWrites : List Bytes
  Handler : Bytes → Bytes
  Encoder : Bytes → Bytes

/-- `f.mutex.Lock()`: blocks forever (`none`) if the mutex is already held —
Go's `sync.RWMutex` is not re-entrant. -/
def mutexLock (f : File) : Option File :=
  if f.mutexHeld then none else some { f with mutexHeld := true }

/-- `f.mutex.Unlock()`. -/
def mutexUnlock (f : File) : File :=
  { f with mutexHeld := false }

/-- `func (f *File) init() error` — note that it takes `f.mutex.Lock()`
itself. -/
def File.init (env : Env) (f : File) : Option (Option WError × File) :=
  match mutexLock f with
  | none => none
  | some f =>
    if f.initialized then
      some (none, mutexUnlock f)
    else if env.openOk then
      some (none, mutexUnlock { f with fileHandlerSet := true, initialized := true })
    else
      some (some .initErr, mutexUnlock f)

/-- `func (f *File) flush() error` — internal, called with the lock already
held, so it performs no locking of its own.  No-op when the handler is absent
or the buffer empty; otherwise optionally encodes, hands the bytes to the
`bufio` adapter, resets the accumulation buffer, then flushes the adapter. -/
def File.flush (env : Env) (f : File) : Option WError × File :=
  if f.fileHandlerSet = false ∨ f.buf = [] then
    (none, f)
  else
    let data := if f.encode then f.Encoder f.buf else f.buf
    if env.writeOk = false then
      (some .flushWriteErr, f)
    else
      let f := { f with adapterBuf := f.adapterBuf ++ data, buf := [],
                        adapterWrites := f.adapterWrites ++ [data] }
      if env.flushOk = false then
        (some .flushFlushErr, f)
      else
        (none, { f with sink := f.sink ++ f.adapterBuf, adapterBuf := [] })

/-- `func (f *File) Write(p []byte) (n int, err error)`.  Locks, rejects a
closed writer, lazily initializes (via `File.init`, which locks again),
appends to the buffer, and flushes once the threshold is reached. -/
def File.Write (env : Env) (f : File) (p : Bytes) : Option (Int × Option WError × File) :=
  match mutexLock f with
  | none => none
  | some f =>
    if f.closed then
      some ((0 : Int), some .closedErr, mutexUnlock f)
    else
      match (if f.initialized then some (none, f) else File.init env f) with
      | none => none
      | some (some e, f) => some ((0 : Int), some e, mutexUnlock f)
      | some (none, f) =>
        let f := { f with buf := f.buf ++ p }
        if (f.buf.length : Int) ≥ f.bufferSize then
          match File.flush env f with
          | (some e, f) => some ((p.length : Int), some e, mutexUnlock f)
          | (none, f) => some ((p.length : Int), none, mutexUnlock f)
        else
          some ((p.length : Int), none, mutexUnlock f)

/-- `func (f *File) WriteString(s string)` — `[]byte(s)` is the identity in
this embedding. -/
def File.WriteString (env : Env) (f : File) (s : Bytes) : Option (Int × Option WError × File) :=
  File.Write env f s

/-- `func (f *File) SafeWrite(s string) error` — applies the `Handler`
preprocessor, then `WriteString`. -/
def File.SafeWrite (env : Env) (f : File) (s : Bytes) : Option (Option WError × File) :=
  match File.WriteString env f (f.Handler s) with
  | none => none
  | some (_, e, f) => some (e, f)

/-- `func (f *File) WriteLine(s string) error` — writes `s + "\n"`. -/
def File.WriteLine (env : Env) (f : File) (s : Bytes) : Option (Option WError × File) :=
  match File.WriteString env f (s ++ [10]) with
  | none => none
  | some (_, e, f) => some (e, f)

/-- `func (f *File) WriteBytes(bs []byte) error`. -/
def File.WriteBytes (env : Env) (f : File) (bs : Bytes) : Option (Option WError × File) :=
  match File.Write env f bs with
  | none => none
  | some (_, e, f) => some (e, f)

/-- `func (f *File) Sync() error` — locks and flushes unconditionally. -/
def File.Sync (env : Env) (f : File) : Option (Option WError × File) :=
  match mutexLock f with
  | none => none
  | some f =>
    match File.flush env f with
    | (e, f) => some (e, mutexUnlock f)

/-- `func (f *File) SyncWrite(s string) error` — `SafeWrite` then `Sync`. -/
def File.SyncWrite (env : Env) (f : File) (s : Bytes) : Option (Option WError × File) :=
  match File.SafeWrite env f s with
  | none => none
  | some (some e, f) => some (some e, f)
  | some (none, f) => File.Sync env f

/-- `func (f *File) Close() error` — no-op when already closed; otherwise a
final flush (aborting the close on failure), then the sink handle close
(aborting — before `closed` is set — on failure), then `closed = true`. -/
def File.Close (env : Env) (f : File) : Option (Option WError × File) :=
  match mutexLock f with
  | none => none
  | some f =>
    if f.closed then
      some (none, mutexUnlock f)
    else
      match File.flush env f with
      | (some e, f) => some (some e, mutexUnlock f)
      | (none, f) =>
        if f.fileHandlerSet then
          if env.closeOk then
            some (none, mutexUnlock { f with closed := true })
          else
            some (some .closeErr, mutexUnlock f)
        else
          some (none, mutexUnlock { f with closed := true })

/-- `func (f *File) BufferLen() int`. -/
def File.BufferLen (f : File) : Int :=
  (f.buf.length : Int)

/-- `func (f *File) SetBufferSize(size int)` — ignores non-positive sizes. -/
def File.SetBufferSize (f : File) (size : Int) : Option File :=
  match mutexLock f with
  | none => none
  | some f =>
    some (mutexUnlock (if size > 0 then { f with bufferSize := size } else f))

/-- `func (f *File) SetHandler(handler func(string) string)` — ignores `nil`
(`none`). -/
def File.SetHandler (f : File) (handler : Option (Bytes → Bytes)) : Option File :=
  match mutexLock f with
  | none => none
  | some f =>
    some (mutexUnlock (match handler with
      | some g => { f with Handler := g }
      | none => f))

/-- `func (f *File) SetEncoder(encoder func([]byte) []byte)` — ignores `nil`
(`none`). -/
def File.SetEncoder (f : File) (encoder : Option (Bytes → Bytes)) : Option File :=
  match mutexLock f with
  | none => none
  | some f =>
    some (mutexUnlock (match encoder with
      | some g => { f with Encoder := g }
      | none => f))

/-- `func (f *File) EnableEncoding(enable bool)`. -/
def File.EnableEncoding (f : File) (enable : Bool) : Option File :=
  match mutexLock f with
  | none => none
  | some f => some (mutexUnlock { f with encode := enable })

end fileutils

namespace encode

/-- Modelled from the spec: the writer's default encoder is
`en.MustDeflateDeCompress`, "a decompression-style transform supplied by the
collaborator encoding module (opaque to this core)".  The encoding module's
deflate routines are not part of the reviewed source; only the identity of
this constant as the default `Encoder` matters to the writer core, so it is
modelled as an unspecified byte transform. -/
def MustDeflateDeCompress : fileutils.Bytes → fileutils.Bytes :=
  fun bs => bs

end encode

namespace fileutils

/-- `func NewFile(filename string, mode int, encode, lazy bool) (*File, error)`.
`none` models both a construction error (eager open failed, no object
returned) and the impossible-by-construction deadlock case. -/
def NewFile (env : Env) (filename : String) (mode : Nat) (encodeFlag lazy : Bool) :
    Option File :=
  let file : File :=
    { filename := filename, mode := mode, encode := encodeFlag, lazy := lazy,
      buf := [], bufferSize := 4096, initialized := false, closed := false,
      fileHandlerSet := false, adapterBuf := [], sink := [], mutexHeld := false,
      adapterWrites := [],
      Handler := fun s => s,
      Encoder := encode.MustDeflateDeCompress }
  if lazy = false then
    match File.init env file with
    | none => none
    | some (some _, _) => none
    | some (none, file) => some file
  else
    some file

/-- The `FileOptions` struct. -/
structure FileOptions where
  Mode : Nat
  Encode : Bool
  Lazy : Bool
  BufferSize : Int
  Handler : Bytes → Bytes
  Encoder : Bytes → Bytes

/-- `func DefaultFileOptions() *FileOptions`. -/
def DefaultFileOptions : FileOptions :=
  { Mode := ModeAppend, Encode := false, Lazy := false, BufferSize := 4096,
    Handler := fun s => s,
    Encoder := encode.MustDeflateDeCompress }

/-- `func NewFileWithOptions(filename string, opts *FileOptions) (*File, error)`.
A `nil` options pointer is `none`. -/
def NewFileWithOptions (env : Env) (filename : String) (opts? : Option FileOptions) :
    Option File :=
  let opts := opts?.getD DefaultFileOptions
  let file : File :=
    { filename := filename, mode := opts.Mode, encode := opts.Encode,
      lazy := opts.Lazy, buf := [], bufferSize := opts.BufferSize,
      initialized := false, closed := false, fileHandlerSet := false,
      adapterBuf := [], sink := [], mutexHeld := false, adapterWrites := [],
      Handler := opts.Handler, Encoder := opts.Encoder }
  if opts.Lazy = false then
    match File.init env file with
    | none => none
    | some (some _, _) => none
    | some (none, file) => some file
  else
    some file

/-- Unlocking right after locking restores a file whose mutex was free. -/
theorem mutexUnlock_mutexHeld (f : File) (h : f.mutexHeld = false) :
    mutexUnlock { f with mutexHeld := true } = f := by
  cases f
  simp only [mutexUnlock]
  simp_all

/-- The all-success environment oracle. -/
def envAll : Env := ⟨true, true, true, true⟩

/-- A concrete initialized, open, idle writer used as a test vehicle. -/
def sampleFile : File :=
  { filename := "out.txt", mode := ModeAppend, encode := false, lazy := false,
    bufferSize := 4096, initialized := true, closed := false,
    fileHandlerSet := true, adapterBuf := [], sink := [], buf := [],
    mutexHeld := false, adapterWrites := [],
    Handler := fun s => s,
    Encoder := encode.MustDeflateDeCompress }

/-- A byte-level uppercasing transform, used as a concrete encoder. -/
def upperBytes (bs : Bytes) : Bytes :=
  bs.map (fun b => if 97 ≤ b ∧ b ≤ 122 then b - 32 else b)

/-- C1: the spec requires the lazy first `Write` to terminate, initializing
the sink "under the exclusive lock already held by that write (no re-entrant
deadlock)".  The code instead deadlocks: `Write` holds `f.mutex` and calls
`f.init()`, which calls `f.mutex.Lock()` again, and Go's `sync.RWMutex` is
not re-entrant.  Every `Write` on a non-closed, uninitialized (lazy) writer
blocks forever (`none`). -/
theorem C1_lazy_first_write_deadlocks (env : Env) (f : File) (p : Bytes)
    (hm : f.mutexHeld = false) (hc : f.closed = false) (hi : f.initialized = false) :
    File.Write env f p = none := by
  unfold File.Write File.init mutexLock
  simp [hm, hc, hi]

/-- C1 witness: a writer built by `NewFile` with `lazy = true` deadlocks on
its first `Write`, even with an all-success environment. -/
theorem C1_lazy_first_write_deadlocks_witness :
    ∃ f, NewFile envAll "out.txt" ModeAppend false true = some f ∧
      f.mutexHeld = false ∧ f.closed = false ∧ f.initialized = false ∧
      File.Write envAll f [104, 105] = none := by
  refine ⟨_, rfl, rfl, rfl, rfl,
    C1_lazy_first_write_deadlocks envAll _ [104, 105] rfl rfl rfl⟩

/-- C4: `Write` on a closed writer returns count 0 and the "writer closed"
error, and leaves the entire writer state — buffer, sink, adapter, ghost
history, configuration — unchanged. -/
theorem C4_write_after_close (env : Env) (f : File) (p : Bytes)
    (hm : f.mutexHeld = false) (hc : f.closed = true) :
    File.Write env f p = some ((0 : Int), some .closedErr, f) := by
  obtain ⟨fn, md, enc, lz, bs, init, cl, fhs, ab, sk, bf, mh, aw, H, E⟩ := f
  have hm' : mh = false := hm
  have hc' : cl = true := hc
  subst hm'
  subst hc'
  unfold File.Write mutexLock
  simp [mutexUnlock]

/-- C4 witness: writing to a concrete closed writer with a non-empty buffer
and sink returns the closed error and changes nothing. -/
theorem C4_write_after_close_witness :
    ({ sampleFile with closed := true, buf := [1, 2], sink := [3] } : File).mutexHeld
        = false ∧
    ({ sampleFile with closed := true, buf := [1, 2], sink := [3] } : File).closed
        = true ∧
    File.Write envAll { sampleFile with closed := true, buf := [1, 2], sink := [3] }
        [9, 9]
      = some ((0 : Int), some .closedErr,
          { sampleFile with closed := true, buf := [1, 2], sink := [3] }) :=
  ⟨rfl, rfl,
    C4_write_after_close envAll
      { sampleFile with closed := true, buf := [1, 2], sink := [3] } [9, 9] rfl rfl⟩

/-- C9: `SetBufferSize` with a non-positive size, `SetHandler` with nil, and
`SetEncoder` with nil all return without error and leave the writer
(threshold, preprocessor, encoder and all other state) exactly unchanged. -/
theorem C9_setters_reject_invalid (f : File) (size : Int)
    (hm : f.mutexHeld = false) (hs : size ≤ 0) :
    File.SetBufferSize f size = some f ∧ File.SetHandler f none = some f ∧
      File.SetEncoder f none = some f := by
  have hnp : ¬ (size > 0) := by omega
  unfold File.SetBufferSize File.SetHandler File.SetEncoder mutexLock
  simp [hm, hnp, mutexUnlock_mutexHeld f hm]

/-- C9 witness: the three setters are no-ops on a concrete writer at size 0. -/
theorem C9_setters_reject_invalid_witness :
    sampleFile.mutexHeld = false ∧ (0 : Int) ≤ 0 ∧
    (File.SetBufferSize sampleFile 0 = some sampleFile ∧
      File.SetHandler sampleFile none = some sampleFile ∧
      File.SetEncoder sampleFile none = some sampleFile) :=
  ⟨rfl, le_refl 0, C9_setters_reject_invalid sampleFile 0 rfl (le_refl 0)⟩

/-- C10: `NewFileWithOptions` with a nil options pointer behaves exactly as
with `DefaultFileOptions()`: append mode, threshold 4096, encoding off, eager
(non-lazy) initialization of the sink, identity preprocessor, and the default
decompression encoder. -/
theorem C10_default_options (env : Env) (fn : String) (h : env.openOk = true) :
    NewFileWithOptions env fn none = NewFileWithOptions env fn (some DefaultFileOptions) ∧
    ∃ f, NewFileWithOptions env fn none = some f ∧
      f.mode = ModeAppend ∧ f.bufferSize = 4096 ∧ f.encode = false ∧
      f.lazy = false ∧ f.initialized = true ∧ f.fileHandlerSet = true ∧
      f.buf = [] ∧ f.Handler = (fun s => s) ∧
      f.Encoder = encode.MustDeflateDeCompress := by
  refine ⟨rfl, ?_⟩
  unfold NewFileWithOptions File.init mutexLock DefaultFileOptions
  simp [h, mutexUnlock]

/-- C10 witness: with a concrete successful environment, the nil-options
construction yields the default configuration. -/
theorem C10_default_options_witness :
    envAll.openOk = true ∧
    (NewFileWithOptions envAll "w.txt" none
        = NewFileWithOptions envAll "w.txt" (some DefaultFileOptions) ∧
      ∃ f, NewFileWithOptions envAll "w.txt" none = some f ∧
        f.mode = ModeAppend ∧ f.bufferSize = 4096 ∧ f.encode = false ∧
        f.lazy = false ∧ f.initialized = true ∧ f.fileHandlerSet = true ∧
        f.buf = [] ∧ f.Handler = (fun s => s) ∧
        f.Encoder = encode.MustDeflateDeCompress) :=
  ⟨rfl, C10_default_options envAll "w.txt" rfl⟩

/-- C3 counterexample: flush succeeds, closing the sink handle fails; `Close`
returns the close error but — contrary to the claim — the state does NOT
transition to Closed: `closed` is still `false` afterwards. -/
theorem C3_close_error_counterexample :
    ∃ f', File.Close ⟨true, true, true, false⟩ sampleFile = some (some .closeErr, f') ∧
      f'.closed = false :=
  ⟨sampleFile, rfl, rfl⟩

/-- `Close` on an already-closed writer is an immediate successful no-op. -/
theorem close_when_closed (env : Env) (f : File) (hm : f.mutexHeld = false)
    (hc : f.closed = true) : File.Close env f = some (none, f) := by
  obtain ⟨fn, md, enc, lz, bs, init, cl, fhs, ab, sk, bf, mh, aw, H, E⟩ := f
  have hm' : mh = false := hm
  have hc' : cl = true := hc
  subst hm'
  subst hc'
  unfold File.Close mutexLock
  simp [mutexUnlock]

/-- C2 counterexample: the buffer holds `[97]`, the adapter write succeeds
but the adapter flush fails.  The flush attempt fails, yet the accumulation
buffer does NOT still contain `[97]` — it was reset before the adapter flush
ran, so the bytes are no longer retryable from the buffer. -/
theorem C2_flush_failure_counterexample :
    ∃ e f', File.flush ⟨true, true, false, true⟩ { sampleFile with buf := [97] }
        = (some e, f') ∧ f'.buf ≠ [97] :=
  ⟨.flushFlushErr, _, rfl, by decide⟩

/-- C2 amended: the retry guarantee holds for adapter WRITE failures only.
If the adapter write fails, the flush attempt returns an error with the whole
writer state (in particular the buffer `b`) unchanged, and a later flush in a
fully healthy environment hands exactly `b ++ extra` (the old bytes plus
whatever was appended meanwhile) to the adapter, clears the buffer, and lands
those bytes in the sink with nothing dropped or duplicated.  (When instead
the adapter write succeeds and only the adapter flush fails, the buffer has
already been cleared — see the counterexample.) -/
theorem C2_amended_write_failure_retry (env1 env2 : Env) (f : File) (extra : Bytes)
    (hw : env1.writeOk = false) (hset : f.fileHandlerSet = true)
    (hne : f.buf ≠ []) (henc : f.encode = false)
    (h2w : env2.writeOk = true) (h2f : env2.flushOk = true) :
    File.flush env1 f = (some .flushWriteErr, f) ∧
    File.flush env2 { f with buf := f.buf ++ extra }
      = (none,
         { f with
             buf := [], adapterBuf := [],
             sink := f.sink ++ (f.adapterBuf ++ (f.buf ++ extra)),
             adapterWrites := f.adapterWrites ++ [f.buf ++ extra] }) := by
  obtain ⟨eo1, ew1, ef1, ec1⟩ := env1
  obtain ⟨eo2, ew2, ef2, ec2⟩ := env2
  obtain ⟨fn, md, enc, lz, bs, init, cl, fhs, ab, sk, bf, mh, aw, H, E⟩ := f
  have hw' : ew1 = false := hw
  have hset' : fhs = true := hset
  have henc' : enc = false := henc
  have h2w' : ew2 = true := h2w
  have h2f' : ef2 = true := h2f
  have hne' : bf ≠ [] := hne
  subst hw'
  subst hset'
  subst henc'
  subst h2w'
  subst h2f'
  unfold File.flush
  simp [hne']

/-- C2 amended witness: buffer `[97]`, adapter write fails, then a retry with
`[98]` appended succeeds and persists exactly `[97, 98]`. -/
theorem C2_amended_write_failure_retry_witness :
    (⟨true, false, true, true⟩ : Env).writeOk = false ∧
    ({ sampleFile with buf := [97] } : File).fileHandlerSet = true ∧
    ({ sampleFile with buf := [97] } : File).buf ≠ [] ∧
    ({ sampleFile with buf := [97] } : File).encode = false ∧
    envAll.writeOk = true ∧ envAll.flushOk = true ∧
    (File.flush ⟨true, false, true, true⟩ { sampleFile with buf := [97] }
        = (some .flushWriteErr, { sampleFile with buf := [97] }) ∧
      File.flush envAll { sampleFile with buf := [97, 98] }
        = (none,
           { sampleFile with
               buf := [], adapterBuf := [],
               sink := [97, 98], adapterWrites := [[97, 98]] })) :=
  ⟨rfl, rfl, by decide, rfl, rfl, rfl,
    C2_amended_write_failure_retry ⟨true, false, true, true⟩ envAll
      { sampleFile with buf := [97] } [98] rfl rfl (by decide) rfl rfl rfl⟩

/-- C3 amended: on a not-yet-closed writer, EVERY erroring `Close` — whether
the final flush failed or the flush succeeded and the sink handle close
failed — returns the error with the state still non-Closed (so a retry is
possible); `closed` becomes `true` only when `Close` returns success. -/
theorem C3_amended_close_errors_leave_open (env : Env) (f : File)
    (hm : f.mutexHeld = false) (hc : f.closed = false) :
    (∀ e f', File.Close env f = some (some e, f') → f'.closed = false) ∧
    (∀ f', File.Close env f = some (none, f') → f'.closed = true) := by
  obtain ⟨eo, ew, ef, ec⟩ := env
  obtain ⟨fn, md, enc, lz, bs, init, cl, fhs, ab, sk, bf, mh, aw, H, E⟩ := f
  have hm' : mh = false := hm
  have hc' : cl = false := hc
  subst hm'
  subst hc'
  unfold File.Close File.flush mutexLock
  constructor
  · intro e f' hcall
    cases fhs <;> cases enc <;> cases ew <;> cases ef <;> cases ec <;>
        rcases bf with _ | ⟨b, bf⟩ <;>
      simp [mutexUnlock] at hcall <;>
        (try rcases hcall with ⟨rfl, rfl⟩) <;> rfl
  · intro f' hcall
    cases fhs <;> cases enc <;> cases ew <;> cases ef <;> cases ec <;>
        rcases bf with _ | ⟨b, bf⟩ <;>
      simp [mutexUnlock] at hcall <;>
        (try rcases hcall with rfl) <;> rfl

/-- C3 amended witness: concrete close-failure environment; the close error
is returned and the writer is still not Closed. -/
theorem C3_amended_close_errors_leave_open_witness :
    sampleFile.mutexHeld = false ∧ sampleFile.closed = false ∧
    File.Close ⟨true, true, true, false⟩ sampleFile
      = some (some .closeErr, sampleFile) ∧
    sampleFile.closed = false :=
  ⟨rfl, rfl, rfl,
    (C3_amended_close_errors_leave_open ⟨true, true, true, false⟩ sampleFile
        rfl rfl).1 .closeErr sampleFile rfl⟩

/-- C6: from any reachable non-closed state (a non-empty buffer only ever
coexists with an opened sink handle), a successful `Close` leaves an empty
buffer at the moment `closed` becomes `true`, and a second `Close` is a
successful no-op: it returns no error and performs no flush and no sink
operation (the state, including sink and the adapter-write history, is
untouched). -/
theorem C6_close_idempotent (env env2 : Env) (f : File)
    (hm : f.mutexHeld = false) (hc : f.closed = false)
    (hreach : f.buf = [] ∨ f.fileHandlerSet = true) :
    ∀ f', File.Close env f = some (none, f') →
      f'.buf = [] ∧ f'.closed = true ∧ f'.mutexHeld = false ∧
        File.Close env2 f' = some (none, f') := by
  obtain ⟨eo, ew, ef, ec⟩ := env
  obtain ⟨fn, md, enc, lz, bs, init, cl, fhs, ab, sk, bf, mh, aw, H, E⟩ := f
  have hm' : mh = false := hm
  have hc' : cl = false := hc
  subst hm'
  subst hc'
  intro f' hcall
  unfold File.Close File.flush mutexLock at hcall
  rcases hreach with hbuf | hfhs
  · have hbuf' : bf = [] := hbuf
    subst hbuf'
    cases fhs <;> cases enc <;> cases ew <;> cases ef <;> cases ec <;>
      simp [mutexUnlock] at hcall <;> (try rcases hcall with rfl) <;>
        exact ⟨rfl, rfl, rfl, close_when_closed _ _ rfl rfl⟩
  · have hfhs' : fhs = true := hfhs
    subst hfhs'
    cases enc <;> cases ew <;> cases ef <;> cases ec <;>
        rcases bf with _ | ⟨b, bf⟩ <;>
      simp [mutexUnlock] at hcall <;> (try rcases hcall with rfl) <;>
        exact ⟨rfl, rfl, rfl, close_when_closed _ _ rfl rfl⟩

/-- The sample writer after a buffered byte `104` has been flushed out and
the writer closed: the state a successful `Close` of
`{ sampleFile with buf := [104] }` produces. -/
def closedSample : File :=
  { sampleFile with
      buf := [], sink := [104], adapterWrites := [[104]], closed := true }

/-- C6 witness: closing a concrete writer holding `[104]` flushes it, reaches
Closed with an empty buffer, and a second `Close` changes nothing. -/
theorem C6_close_idempotent_witness :
    ({ sampleFile with buf := [104] } : File).mutexHeld = false ∧
    ({ sampleFile with buf := [104] } : File).closed = false ∧
    (({ sampleFile with buf := [104] } : File).buf = [] ∨
      ({ sampleFile with buf := [104] } : File).fileHandlerSet = true) ∧
    File.Close envAll { sampleFile with buf := [104] } = some (none, closedSample) ∧
    (closedSample.buf = [] ∧ closedSample.closed = true ∧
      closedSample.mutexHeld = false ∧
      File.Close envAll closedSample = some (none, closedSample)) :=
  ⟨rfl, rfl, Or.inr rfl, rfl,
    C6_close_idempotent envAll envAll { sampleFile with buf := [104] }
      rfl rfl (Or.inr rfl) closedSample rfl⟩

/-- C5: every successful `Write p` on an open writer (whose sink handle is
present, as is the case for every initialized writer) returns exactly
`len p`, and when the appended buffer reached the threshold an automatic
flush ran before returning, leaving the buffer empty — so for a positive
threshold `T = bufferSize` the buffer length on return is strictly below
`T`. -/
theorem C5_write_threshold (env : Env) (f : File) (p : Bytes) (n : Int) (f' : File)
    (hT : 0 < f.bufferSize) (hset : f.fileHandlerSet = true)
    (h : File.Write env f p = some (n, none, f')) :
    n = (p.length : Int) ∧
    ((f.buf.length : Int) + (p.length : Int) ≥ f.bufferSize → f'.buf = []) ∧
    (f'.buf.length : Int) < f.bufferSize := by
  obtain ⟨eo, ew, ef, ec⟩ := env
  obtain ⟨fn, md, enc, lz, bs, init, cl, fhs, ab, sk, bf, mh, aw, H, E⟩ := f
  have hset' : fhs = true := hset
  subst hset'
  have hT' : (0 : Int) < bs := hT
  unfold File.Write File.init File.flush mutexLock at h
  cases mh with
  | true => simp at h
  | false =>
  cases cl with
  | true => simp at h
  | false =>
  cases init with
  | false => simp at h
  | true =>
  by_cases hge : bs ≤ (bf.length : Int) + (p.length : Int)
  · have hnil : ¬ (bf = [] ∧ p = []) := by
      rintro ⟨rfl, rfl⟩
      simp at hge
      omega
    cases ew with
    | false => simp [hge, hnil] at h
    | true =>
      cases ef with
      | false => simp [hge, hnil] at h
      | true =>
        simp [hge, hnil, mutexUnlock] at h
        obtain ⟨rfl, rfl⟩ := h
        refine ⟨rfl, fun _ => rfl, ?_⟩
        simpa using hT'
  · simp [hge, mutexUnlock] at h
    obtain ⟨rfl, rfl⟩ := h
    refine ⟨rfl, ?_, ?_⟩
    · intro hcontra
      exact absurd hcontra hge
    · rw [List.length_append]
      push_cast
      omega

/-- C5 witness: threshold 4, buffer `[97, 98]`, writing `[99, 100]` returns
count 2 and triggers the automatic flush, leaving an empty buffer. -/
theorem C5_write_threshold_witness :
    (0 : Int) < ({ sampleFile with bufferSize := 4, buf := [97, 98] } : File).bufferSize ∧
    ({ sampleFile with bufferSize := 4, buf := [97, 98] } : File).fileHandlerSet = true ∧
    File.Write envAll { sampleFile with bufferSize := 4, buf := [97, 98] } [99, 100]
      = some ((2 : Int), none,
          { sampleFile with
              bufferSize := 4, buf := [], sink := [97, 98, 99, 100],
              adapterWrites := [[97, 98, 99, 100]] }) ∧
    ((2 : Int) = (([99, 100] : Bytes).length : Int) ∧
      ((({ sampleFile with bufferSize := 4, buf := [97, 98] } : File).buf.length : Int)
          + (([99, 100] : Bytes).length : Int)
          ≥ ({ sampleFile with bufferSize := 4, buf := [97, 98] } : File).bufferSize →
        ({ sampleFile with
            bufferSize := 4, buf := [], sink := [97, 98, 99, 100],
            adapterWrites := [[97, 98, 99, 100]] } : File).buf = []) ∧
      ((({ sampleFile with
            bufferSize := 4, buf := [], sink := [97, 98, 99, 100],
            adapterWrites := [[97, 98, 99, 100]] } : File).buf.length : Int)
        < ({ sampleFile with bufferSize := 4, buf := [97, 98] } : File).bufferSize)) :=
  ⟨by decide, rfl, rfl,
    C5_write_threshold envAll { sampleFile with bufferSize := 4, buf := [97, 98] }
      [99, 100] 2 _ (by decide) rfl rfl⟩

/-- A concrete writer whose encode flag is set, with an uppercasing encoder
and the bytes of "abc" buffered. -/
def encSample : File :=
  { sampleFile with encode := true, Encoder := upperBytes, buf := [97, 98, 99] }

/-- C7: whenever `flush` runs with a non-empty buffer and a present sink
handle and the adapter write goes through, the byte sequence handed to the
sink adapter is exactly the encoder applied to the full buffered bytes when
the encode flag is set, and the buffered bytes unchanged otherwise. -/
theorem C7_flush_writes_encoder_output (env : Env) (f : File)
    (hset : f.fileHandlerSet = true) (hne : f.buf ≠ []) (hw : env.writeOk = true) :
    (File.flush env f).2.adapterWrites
      = f.adapterWrites ++ [if f.encode then f.Encoder f.buf else f.buf] := by
  obtain ⟨eo, ew, ef, ec⟩ := env
  obtain ⟨fn, md, enc, lz, bs, init, cl, fhs, ab, sk, bf, mh, aw, H, E⟩ := f
  have hset' : fhs = true := hset
  have hw' : ew = true := hw
  subst hset'
  subst hw'
  have hne' : bf ≠ [] := hne
  unfold File.flush
  cases ef <;> simp [hne']

/-- C7 witness: encode on, uppercasing encoder, buffered "abc"
(`[97, 98, 99]`); the adapter receives exactly "ABC" (`[65, 66, 67]`) and the
sink ends up containing it. -/
theorem C7_flush_writes_encoder_output_witness :
    encSample.fileHandlerSet = true ∧ encSample.buf ≠ [] ∧ envAll.writeOk = true ∧
    (File.flush envAll encSample).2.adapterWrites
      = encSample.adapterWrites
        ++ [if encSample.encode then encSample.Encoder encSample.buf else encSample.buf] ∧
    (File.flush envAll encSample).2.adapterWrites = [[65, 66, 67]] ∧
    (File.flush envAll encSample).2.sink = [65, 66, 67] ∧
    (File.flush envAll encSample).1 = none :=
  ⟨rfl, by decide, rfl,
    C7_flush_writes_encoder_output envAll encSample rfl (by decide) rfl,
    by decide, by decide, rfl⟩

/-- `Write` never reads the `Handler` preprocessor: replacing the handler
before a `Write` changes nothing in the outcome except the stored field
itself. -/
theorem write_ignores_handler (env : Env) (f : File) (p : Bytes) (g : Bytes → Bytes) :
    File.Write env { f with Handler := g } p
      = (File.Write env f p).map (fun r => (r.1, r.2.1, { r.2.2 with Handler := g })) := by
  obtain ⟨eo, ew, ef, ec⟩ := env
  obtain ⟨fn, md, enc, lz, bs, init, cl, fhs, ab, sk, bf, mh, aw, H, E⟩ := f
  unfold File.Write File.init File.flush mutexLock
  cases mh with
  | true => simp
  | false =>
  cases cl with
  | true => simp [mutexUnlock]
  | false =>
  cases init with
  | false => simp
  | true =>
  by_cases hge : bs ≤ (bf.length : Int) + (p.length : Int)
  · by_cases hnil : bf = [] ∧ p = []
    · cases fhs <;> simp [hge, hnil, mutexUnlock]
    · cases fhs <;> cases enc <;> cases ew <;> cases ef <;>
        simp [hge, hnil, mutexUnlock]
  · simp [hge, mutexUnlock]

/-- `WriteBytes` inherits handler-independence from `Write`. -/
theorem writeBytes_ignores_handler (env : Env) (f : File) (bs : Bytes)
    (g : Bytes → Bytes) :
    File.WriteBytes env { f with Handler := g } bs
      = (File.WriteBytes env f bs).map (fun r => (r.1, { r.2 with Handler := g })) := by
  unfold File.WriteBytes
  rw [write_ignores_handler]
  rcases File.Write env f bs with _ | ⟨n, e, f'⟩ <;> simp

/-- `WriteLine` inherits handler-independence from `Write`. -/
theorem writeLine_ignores_handler (env : Env) (f : File) (s : Bytes)
    (g : Bytes → Bytes) :
    File.WriteLine env { f with Handler := g } s
      = (File.WriteLine env f s).map (fun r => (r.1, { r.2 with Handler := g })) := by
  unfold File.WriteLine File.WriteString
  rw [write_ignores_handler]
  rcases File.Write env f (s ++ [10]) with _ | ⟨n, e, f'⟩ <;> simp

/-- C8: `SafeWrite` is exactly `WriteString` applied to the preprocessor's
output; `Write`, `WriteString`, `WriteBytes` and `WriteLine` never consult
the preprocessor (replacing it does not change their outcome); and
`WriteLine s` writes exactly `s` with a single `"\n"` (byte 10) appended,
i.e. it coincides with `WriteBytes (s ++ [10])`. -/
theorem C8_preprocessor_discipline (env : Env) (f : File) (s : Bytes)
    (g : Bytes → Bytes) :
    File.SafeWrite env f s
      = (File.WriteString env f (f.Handler s)).map (fun r => (r.2.1, r.2.2)) ∧
    File.WriteLine env f s = File.WriteBytes env f (s ++ [10]) ∧
    File.Write env { f with Handler := g } s
      = (File.Write env f s).map (fun r => (r.1, r.2.1, { r.2.2 with Handler := g })) ∧
    File.WriteString env { f with Handler := g } s
      = (File.WriteString env f s).map (fun r => (r.1, r.2.1, { r.2.2 with Handler := g })) ∧
    File.WriteLine env { f with Handler := g } s
      = (File.WriteLine env f s).map (fun r => (r.1, { r.2 with Handler := g })) ∧
    File.WriteBytes env { f with Handler := g } s
      = (File.WriteBytes env f s).map (fun r => (r.1, { r.2 with Handler := g })) := by
  refine ⟨?_, rfl, write_ignores_handler env f s g, write_ignores_handler env f s g,
    writeLine_ignores_handler env f s g, writeBytes_ignores_handler env f s g⟩
  unfold File.SafeWrite
  rcases File.WriteString env f (f.Handler s) with _ | ⟨n, e, f'⟩ <;> simp

end fileutils
